import Mathlib

/-!
Verification development for the attestation-dashboard core of the
ansible-tdx-sidecar repository. The Python sources under
`examples/attestation-dashboard/app` are shallowly embedded below:
pure logic becomes Lean functions, byte strings become `List Nat`,
timestamps become `Int`, fallible calls become `Except`/`Option`, and the
outcome of external I/O (base64 decoding, the native DCAP call, the forge
HTTP API) is passed in as an explicit argument so each code path can be
examined.
-/

/-! ## Shared string helpers

Python `str.lower()` restricted to ASCII (all strings handled by the
embedded code are ASCII), and Python `needle in haystack` substring
containment. These are defined from first principles so that they reduce
in the kernel.
-/

/-- ASCII lower-casing of one character, as Python `str.lower` acts on the
ASCII range. -/
def lowerChar (c : Char) : Char :=
  if 'A' ≤ c ∧ c ≤ 'Z' then Char.ofNat (c.toNat + 32) else c

/-- Python `s.lower()` on ASCII strings. -/
def pyLower (s : String) : String := ⟨s.data.map lowerChar⟩

/-- Contiguous-sublist test on character lists. -/
def isSubList (needle : List Char) : List Char → Bool
  | [] => needle.isEmpty
  | c :: rest => needle.isPrefixOf (c :: rest) || isSubList needle rest

/-- Python `needle in haystack` for strings: contiguous substring. -/
def pyIn (needle haystack : String) : Bool := isSubList needle.data haystack.data

/-- Lower-case hexadecimal digit for a nibble, as produced by Python
`bytes.hex()`. -/
def hexDigit (n : Nat) : Char :=
  if n < 10 then Char.ofNat (48 + n) else Char.ofNat (87 + n)

/-- Two-digit lower-case hex rendering of one byte. -/
def byteHex (b : Nat) : String := String.mk [hexDigit (b / 16 % 16), hexDigit (b % 16)]

/-- Python `bytes.hex()`: concatenation of two-digit renderings. -/
def bytesHex : List Nat → String
  | [] => ""
  | b :: bs => byteHex b ++ bytesHex bs

/-- Character is one of `0-9a-f`. -/
def isLowerHexChar (c : Char) : Bool := ("0123456789abcdef".data).contains c

/-- Python slice `q[lo:hi]` on a byte string (with `lo ≤ hi ≤ len`). -/
def pySlice (q : List Nat) (lo hi : Nat) : List Nat := (q.drop lo).take (hi - lo)

/-! ## DCAP verifier — `app/core/dcap_verifier.py`

`DCAPVerifier.verify_quote` base64-decodes its input, then either runs
`_mock_verify` (when the native quote-verification library could not be
loaded) or `_real_verify` (which calls `sgx_qv_verify_quote` through
ctypes). The decode outcome and the native call outcome are passed in as
data; everything else is embedded verbatim.
-/

/-- Output record of `dcap_verifier.DCAPVerificationOutput`. The
`collateral_expiry` field is always `None` in the source and is kept as a
constant `none`-valued `Option Int`. -/
structure DCAPVerificationOutput where
  verified : Bool
  status : String
  tcb_status : Option String
  collateral_expiry : Option Int
  quote_body : Option (List Nat)
  error : Option String
deriving DecidableEq

/-- Outcome of the native `sgx_qv_verify_quote` call: its return code and
the value written through `p_quote_verification_result`. -/
structure NativeCall where
  ret : Int
  verification_result : Nat
deriving DecidableEq

/-- `QuoteVerificationResult(value).name` of `dcap_verifier.py`: the
`IntEnum` has members 0..6; any other value makes the constructor raise
`ValueError`, modelled as `none`. -/
def quoteResultName : Nat → Option String
  | 0 => some "OK"
  | 1 => some "CONFIG_NEEDED"
  | 2 => some "OUT_OF_DATE"
  | 3 => some "OUT_OF_DATE_CONFIG_NEEDED"
  | 4 => some "INVALID_SIGNATURE"
  | 5 => some "REVOKED"
  | 6 => some "UNSPECIFIED"
  | _ => none

/-- `DCAPVerifier._get_tcb_status`. -/
def getTcbStatus : Nat → String
  | 0 => "UpToDate"
  | 1 => "ConfigurationNeeded"
  | 2 => "OutOfDate"
  | 3 => "OutOfDateConfigurationNeeded"
  | 5 => "Revoked"
  | _ => "Unknown"

/-- Little-endian version field `int.from_bytes(quote[0:2], "little")` for
quotes of length at least 2. -/
def quoteVersion (q : List Nat) : Nat := q.getD 0 0 + 256 * q.getD 1 0

/-- `DCAPVerifier._mock_verify`: structural validation only. -/
def mock_verify (quote : List Nat) : DCAPVerificationOutput :=
  if quote.length < 560 then
    { verified := false
      status := "INVALID_QUOTE_LENGTH"
      tcb_status := none
      collateral_expiry := none
      quote_body := some quote
      error := some ("Quote too short: " ++ toString quote.length ++ " bytes") }
  else if quoteVersion quote ≠ 4 then
    { verified := false
      status := "INVALID_QUOTE_VERSION"
      tcb_status := none
      collateral_expiry := none
      quote_body := some quote
      error := some ("Unexpected quote version: " ++ toString (quoteVersion quote)) }
  else
    { verified := true
      status := "MOCK_OK"
      tcb_status := some "MockVerification"
      collateral_expiry := none
      quote_body := some quote
      error := some "DCAP library not available - structural validation only" }

/-- `DCAPVerifier._real_verify` after the ctypes plumbing: a nonzero
return code yields status `ERROR`; otherwise the result value is pushed
through the `QuoteVerificationResult` enum, whose `ValueError` on an
out-of-range value is caught by the surrounding `except` block and
becomes status `EXCEPTION`. -/
def real_verify (native : NativeCall) (quote : List Nat) : DCAPVerificationOutput :=
  if native.ret ≠ 0 then
    { verified := false
      status := "ERROR"
      tcb_status := none
      collateral_expiry := none
      quote_body := some quote
      error := some ("Quote verification failed with code: " ++ toString native.ret) }
  else
    match quoteResultName native.verification_result with
    | some name =>
        let verified := native.verification_result == 0
        { verified := verified
          status := name
          tcb_status := some (getTcbStatus native.verification_result)
          collateral_expiry := none
          quote_body := some quote
          error := if verified then none else some ("Verification status: " ++ name) }
    | none =>
        { verified := false
          status := "EXCEPTION"
          tcb_status := none
          collateral_expiry := none
          quote_body := some quote
          error := some (toString native.verification_result ++
                         " is not a valid QuoteVerificationResult") }

/-- `DCAPVerifier.verify_quote`. `libAvailable` reflects whether
`_load_library` returned a handle; `decoded` is the outcome of
`base64.b64decode`; `native` is the outcome the loaded library would
produce. -/
def verify_quote (libAvailable : Bool) (native : NativeCall)
    (decoded : Except String (List Nat)) : DCAPVerificationOutput :=
  match decoded with
  | .error e =>
      { verified := false
        status := "INVALID_FORMAT"
        tcb_status := none
        collateral_expiry := none
        quote_body := none
        error := some ("Invalid base64 quote: " ++ e) }
  | .ok quote =>
      if libAvailable then real_verify native quote
      else mock_verify quote

/-- Modelled from the spec: the status table of §4.1 for the
`verification_result` codes, amended so that out-of-range codes take the
exception path rather than a `unknown` status. The spec writes statuses
in lower case; the code renders them upper case, compared here through
`pyLower`. -/
def specResultTable : Nat → String × Bool
  | 0 => ("ok", true)
  | 1 => ("config_needed", false)
  | 2 => ("out_of_date", false)
  | 3 => ("out_of_date_config_needed", false)
  | 4 => ("invalid_signature", false)
  | 5 => ("revoked", false)
  | 6 => ("unspecified", false)
  | _ => ("exception", false)

/-! ## Build-provenance verifier, API backend —
`app/core/github_verifier.py`, `GitHubAttestationVerifier._verify_with_api`

The HTTP fetch and the JSON/base64 decoding of the DSSE
payload are external effects; their outcome is passed in as data. The
branching and the produced records are embedded line by line from the
source (lines 206-306).
-/

/-- Output record of `github_verifier.GitHubVerificationOutput`. -/
structure GitHubVerificationOutput where
  verified : Bool
  signer_identity : Option String
  workflow_ref : Option String
  build_trigger : Option String
  repository : Option String
  error : Option String
deriving DecidableEq

/-- Fields read out of a successfully parsed DSSE payload:
`predicate.buildDefinition.externalParameters.workflow.{repository, ref}`
and `...externalParameters.github.event_name`; missing string fields
default to the empty string as with `dict.get`. -/
structure ProvenancePayload where
  repository : String
  ref : String
  event_name : Option String
deriving DecidableEq

/-- What became of the DSSE payload: the `payload` field is
the empty string, base64/JSON decoding raised, or it parsed. -/
inductive PayloadOutcome
  | absent
  | parseFailure (msg : String)
  | parsed (p : ProvenancePayload)
deriving DecidableEq

/-- Outcome of `GET /users/{org}/attestations/{digest}`: 404, another
HTTP error status (raised by `raise_for_status`), or a JSON body holding
a list of attestation bundles, each already reduced to its payload
outcome. -/
inductive ApiFetchOutcome
  | notFound
  | httpError (code : Nat)
  | ok (attestations : List PayloadOutcome)
deriving DecidableEq

/-- `GitHubAttestationVerifier._verify_with_api`. -/
def verify_with_api (expected_org expected_repo : String)
    (resp : ApiFetchOutcome) : GitHubVerificationOutput :=
  match resp with
  | .notFound =>
      { verified := false, signer_identity := none, workflow_ref := none
        build_trigger := none, repository := none
        error := some "No attestation found for image digest" }
  | .httpError code =>
      { verified := false, signer_identity := none, workflow_ref := none
        build_trigger := none, repository := none
        error := some ("GitHub API error: " ++ toString code) }
  | .ok [] =>
      { verified := false, signer_identity := none, workflow_ref := none
        build_trigger := none, repository := none
        error := some "No attestations in response" }
  | .ok (bundle :: _) =>
      match bundle with
      | .parsed p =>
          let expected_repo_full :=
            "https://github.com/" ++ expected_org ++ "/" ++ expected_repo
          if p.repository != "" &&
             !(pyIn (pyLower expected_repo_full) (pyLower p.repository)) then
            { verified := false, signer_identity := none
              workflow_ref := some p.ref, build_trigger := none
              repository := some p.repository
              error := some ("Repository mismatch: expected " ++ expected_repo_full
                             ++ ", got " ++ p.repository) }
          else
            { verified := true, signer_identity := none
              workflow_ref := some p.ref, build_trigger := p.event_name
              repository := some (expected_org ++ "/" ++ expected_repo)
              error := some "API-based verification (signature not fully verified)" }
      | .absent =>
          { verified := true, signer_identity := none, workflow_ref := none
            build_trigger := none
            repository := some (expected_org ++ "/" ++ expected_repo)
            error := some "Attestation found but payload parsing failed" }
      | .parseFailure _ =>
          { verified := true, signer_identity := none, workflow_ref := none
            build_trigger := none
            repository := some (expected_org ++ "/" ++ expected_repo)
            error := some "Attestation found but payload parsing failed" }

/-! ## Measurement verifier — `app/core/measurement_verifier.py` -/

/-- `measurement_verifier.TDXMeasurements`: five hex-rendered registers. -/
structure TDXMeasurements where
  mrtd : String
  rtmr0 : String
  rtmr1 : String
  rtmr2 : String
  rtmr3 : String
deriving DecidableEq

/-- `measurement_verifier.MeasurementComparisonResult`. -/
structure MeasurementComparisonResult where
  verified : Bool
  mrtd_match : Bool
  rtmr0_match : Bool
  rtmr1_match : Bool
  rtmr2_match : Bool
  rtmr3_match : Bool
  actual : Option TDXMeasurements
  expected : Option TDXMeasurements
  error : Option String
deriving DecidableEq

/-- Offset constants of `MeasurementVerifier`. -/
def QUOTE_HEADER_SIZE : Nat := 48

/-- TD report offset. -/
def TD_REPORT_OFFSET : Nat := QUOTE_HEADER_SIZE

/-- MRTD offset (176). -/
def MRTD_OFFSET : Nat := TD_REPORT_OFFSET + 128

/-- RTMR block offset (368). -/
def RTMR_OFFSET : Nat := TD_REPORT_OFFSET + 320

/-- `MeasurementVerifier.extract_measurements`; the `ValueError` raise on
short quotes becomes `Except.error`. -/
def extract_measurements (quote : List Nat) : Except String TDXMeasurements :=
  if quote.length < 560 then
    .error ("Quote too short: " ++ toString quote.length ++ " bytes (minimum 560)")
  else
    .ok { mrtd := bytesHex (pySlice quote MRTD_OFFSET (MRTD_OFFSET + 48))
          rtmr0 := bytesHex (pySlice quote RTMR_OFFSET (RTMR_OFFSET + 48))
          rtmr1 := bytesHex (pySlice quote (RTMR_OFFSET + 48) (RTMR_OFFSET + 96))
          rtmr2 := bytesHex (pySlice quote (RTMR_OFFSET + 96) (RTMR_OFFSET + 144))
          rtmr3 := bytesHex (pySlice quote (RTMR_OFFSET + 144) (RTMR_OFFSET + 192)) }

/-- `MeasurementVerifier.compare_measurements`; `skip_rtmr3` defaults to
`true` in the source and at its one call site
(`ChainVerifier._verify_measurements`). -/
def compare_measurements (actual expected : TDXMeasurements)
    (skip_rtmr3 : Bool := true) : MeasurementComparisonResult :=
  let mrtd_match := pyLower actual.mrtd == pyLower expected.mrtd
  let rtmr0_match := pyLower actual.rtmr0 == pyLower expected.rtmr0
  let rtmr1_match := pyLower actual.rtmr1 == pyLower expected.rtmr1
  let rtmr2_match := pyLower actual.rtmr2 == pyLower expected.rtmr2
  let rtmr3_match := skip_rtmr3 || (pyLower actual.rtmr3 == pyLower expected.rtmr3)
  let all_match := mrtd_match && rtmr0_match && rtmr1_match && rtmr2_match && rtmr3_match
  let mismatches :=
    (if mrtd_match then [] else ["MRTD"]) ++
    (if rtmr0_match then [] else ["RTMR0"]) ++
    (if rtmr1_match then [] else ["RTMR1"]) ++
    (if rtmr2_match then [] else ["RTMR2"]) ++
    (if rtmr3_match then [] else ["RTMR3"])
  { verified := all_match
    mrtd_match := mrtd_match
    rtmr0_match := rtmr0_match
    rtmr1_match := rtmr1_match
    rtmr2_match := rtmr2_match
    rtmr3_match := rtmr3_match
    actual := some actual
    expected := some expected
    error := if all_match then none
             else some ("Measurement mismatch in: " ++ String.intercalate ", " mismatches) }

/-- Names for the five registers, used to index the comparison result. -/
inductive MeasurementReg
  | mrtd
  | rtmr0
  | rtmr1
  | rtmr2
  | rtmr3
deriving DecidableEq

/-- Register projection of a measurements record. -/
def regValue (m : TDXMeasurements) : MeasurementReg → String
  | .mrtd => m.mrtd
  | .rtmr0 => m.rtmr0
  | .rtmr1 => m.rtmr1
  | .rtmr2 => m.rtmr2
  | .rtmr3 => m.rtmr3

/-- Register update of a measurements record. -/
def setRegValue (m : TDXMeasurements) (r : MeasurementReg) (v : String) : TDXMeasurements :=
  match r with
  | .mrtd => { m with mrtd := v }
  | .rtmr0 => { m with rtmr0 := v }
  | .rtmr1 => { m with rtmr1 := v }
  | .rtmr2 => { m with rtmr2 := v }
  | .rtmr3 => { m with rtmr3 := v }

/-- Register names as they appear in the mismatch error. -/
def regLabel : MeasurementReg → String
  | .mrtd => "MRTD"
  | .rtmr0 => "RTMR0"
  | .rtmr1 => "RTMR1"
  | .rtmr2 => "RTMR2"
  | .rtmr3 => "RTMR3"

/-- Match bit of a comparison result for a given register. -/
def matchBit (res : MeasurementComparisonResult) : MeasurementReg → Bool
  | .mrtd => res.mrtd_match
  | .rtmr0 => res.rtmr0_match
  | .rtmr1 => res.rtmr1_match
  | .rtmr2 => res.rtmr2_match
  | .rtmr3 => res.rtmr3_match

/-! ## Attestation cache, TTL part — `app/core/attestation_cache.py`

`CachedAttestation.is_expired` compares `datetime.utcnow()` with
`expires_at`; timestamps are embedded as `Int`. The three sub-results
carried by an entry play no role in the cache logic and are kept as the
single `verified` flag; the map `self._cache` becomes an association
list whose insertion replaces the key, matching `dict` assignment.
-/

/-- `attestation_cache.CachedAttestation` (timing-relevant fields; the
dcap, github and measurements payloads are opaque to the cache). -/
structure CachedAttestation where
  app_id : String
  verified : Bool
  cached_at : Int
  expires_at : Int
deriving DecidableEq

/-- `CachedAttestation.is_expired` at the given current time:
`datetime.utcnow() > self.expires_at`. -/
def is_expired (now : Int) (c : CachedAttestation) : Bool := decide (c.expires_at < now)

/-- The `self._cache` dictionary. -/
def AttCacheMap := List (String × CachedAttestation)

/-- Dictionary lookup `self._cache.get(app_id)`. -/
def cache_lookup : List (String × CachedAttestation) → String → Option CachedAttestation
  | [], _ => none
  | (k, c) :: rest, app => if k == app then some c else cache_lookup rest app

/-- Dictionary deletion `del self._cache[app_id]`. -/
def cache_erase : List (String × CachedAttestation) → String → List (String × CachedAttestation)
  | [], _ => []
  | (k, c) :: rest, app =>
      if k == app then cache_erase rest app else (k, c) :: cache_erase rest app

/-- `AttestationCache.get` at current time `now`: returns the live entry,
or removes an expired one and returns `none`; the first component is the
cache dictionary after the call. -/
def cache_get (st : List (String × CachedAttestation)) (now : Int) (app : String) :
    List (String × CachedAttestation) × Option CachedAttestation :=
  match cache_lookup st app with
  | some c => if !(is_expired now c) then (st, some c) else (cache_erase st app, none)
  | none => (st, none)

/-- `AttestationCache.set` at current time `now` with the configured
`ttl_seconds`: builds the entry with `cached_at = now`,
`expires_at = now + ttl`, stores it, and returns it. -/
def cache_set (st : List (String × CachedAttestation)) (now ttl : Int)
    (app : String) (v : Bool) : List (String × CachedAttestation) × CachedAttestation :=
  let c : CachedAttestation :=
    { app_id := app, verified := v, cached_at := now, expires_at := now + ttl }
  ((app, c) :: cache_erase st app, c)

/-! ## Attestation cache, single-flight part —
`AttestationCache.get_or_verify` (lines 133-207)

Two concurrent callers on one `app_id` are embedded as an interleaving
machine. Each caller advances through the program points of
`get_or_verify`; `asyncio.Event` objects live in a heap (`events`, the
Bool being `is_set`), and `self._pending` holds at most the event id for
the single `app_id` under consideration. Each step is one region of the
source that runs without suspension: the cache read, the lock section
that consults or populates `_pending`, the branch on `event.is_set()`,
the verification body with its `finally` block, and the post-wait cache
read.
-/

/-- Program counter of one `get_or_verify` caller. -/
inductive CallerPC
  | start
  | missed
  | branch (ev : Nat)
  | runVerify (ev : Nat)
  | waitEv (ev : Nat)
  | readBack (ev : Nat)
  | doneOk
  | doneErr
deriving DecidableEq

/-- Shared state of the cache plus the two callers A and B. `cacheFilled`
abstracts whether `self._cache` holds a live entry for the `app_id`;
`verifRuns` counts completed underlying verifications. -/
structure FlightState where
  cacheFilled : Bool
  events : List Bool
  pending : Option Nat
  verifRuns : Nat
  pcA : CallerPC
  pcB : CallerPC
deriving DecidableEq

/-- One scheduler step: run the next atomic region of caller B when
`t = true`, of caller A otherwise. -/
def flightStep (s : FlightState) (t : Bool) : FlightState :=
  let pc := if t then s.pcB else s.pcA
  let put := fun (s1 : FlightState) (pc1 : CallerPC) =>
    if t then { s1 with pcB := pc1 } else { s1 with pcA := pc1 }
  match pc with
  | .start =>
      -- `cached = await self.get(app_id); if cached: return cached`
      if s.cacheFilled then put s .doneOk else put s .missed
  | .missed =>
      -- lock section lines 160-165: consult or populate `_pending`
      match s.pending with
      | some i => put s (.branch i)
      | none =>
          let i := s.events.length
          put { s with events := s.events ++ [false], pending := some i } (.branch i)
  | .branch i =>
      -- line 168: `if not event.is_set():`
      if s.events.getD i false then put s (.waitEv i) else put s (.runVerify i)
  | .runVerify _ =>
      -- lines 169-198: verify, cache the result, then the `finally`
      -- block sets and removes whatever event `_pending` currently holds
      let s1 := { s with verifRuns := s.verifRuns + 1, cacheFilled := true }
      let s2 := match s1.pending with
                | some j => { s1 with events := s1.events.set j true, pending := none }
                | none => s1
      put s2 .doneOk
  | .waitEv i =>
      -- line 201: `await event.wait()` (blocked while the event is unset)
      if s.events.getD i false then put s (.readBack i) else s
  | .readBack _ =>
      -- lines 202-207: re-read the cache; raise if still empty
      if s.cacheFilled then put s .doneOk else put s .doneErr
  | .doneOk => s
  | .doneErr => s

/-- Cold-cache initial state: no cache entry, no events, no pending
entry, both callers at the top of `get_or_verify`. -/
def coldStart : FlightState :=
  { cacheFilled := false, events := [], pending := none, verifRuns := 0
    pcA := .start, pcB := .start }

/-- Run a schedule (list of thread choices) from a state. -/
def runSchedule (sched : List Bool) (s : FlightState) : FlightState :=
  sched.foldl flightStep s

/-! ## Reverse-proxy header filtering — `app/proxy/client.py` -/

/-- `SKIP_REQUEST_HEADERS` of `proxy/client.py`. -/
def SKIP_REQUEST_HEADERS : List String :=
  ["host", "connection", "keep-alive", "proxy-authenticate",
   "proxy-authorization", "te", "trailers", "transfer-encoding", "upgrade"]

/-- `SKIP_RESPONSE_HEADERS` of `proxy/client.py`. -/
def SKIP_RESPONSE_HEADERS : List String :=
  ["connection", "keep-alive", "proxy-authenticate", "proxy-authorization",
   "te", "trailers", "transfer-encoding", "upgrade",
   "content-encoding", "content-length"]

/-- `filter_request_headers`. -/
def filter_request_headers (headers : List (String × String)) : List (String × String) :=
  headers.filter (fun kv => !(SKIP_REQUEST_HEADERS.contains (pyLower kv.1)))

/-- `filter_response_headers`. -/
def filter_response_headers (headers : List (String × String)) : List (String × String) :=
  headers.filter (fun kv => !(SKIP_RESPONSE_HEADERS.contains (pyLower kv.1)))

/-! ## Helper lemmas -/

/-- Every element surviving `List.filter p` satisfies `p`. -/
theorem filter_all_keeps {α : Type} (p : α → Bool) (l : List α) :
    (l.filter p).all p = true := by
  rw [List.all_eq_true]
  intro x hx
  exact (List.mem_filter.mp hx).2

/-- Erasing a key from the cache dictionary removes it from lookups. -/
theorem cache_lookup_erase (st : List (String × CachedAttestation)) (app : String) :
    cache_lookup (cache_erase st app) app = none := by
  induction st with
  | nil => rfl
  | cons kc rest ih =>
      obtain ⟨k, c⟩ := kc
      by_cases h : (k == app) = true
      · simp [cache_erase, h, ih]
      · simp [cache_erase, cache_lookup, h, ih]

/-- One byte renders as two characters. -/
theorem byteHex_length (b : Nat) : (byteHex b).length = 2 := rfl

/-- `bytes.hex()` renders two characters per byte. -/
theorem bytesHex_length (l : List Nat) : (bytesHex l).length = 2 * l.length := by
  induction l with
  | nil => rfl
  | cons b bs ih =>
      rw [bytesHex, String.length_append, byteHex_length, ih, List.length_cons]
      omega

/-- Each nibble digit lands in `0-9a-f`. -/
theorem hexDigit_lower_hex : ∀ n, n < 16 → isLowerHexChar (hexDigit n) = true := by decide

/-- One byte renders entirely in `0-9a-f`. -/
theorem byteHex_lower_hex (b : Nat) : ((byteHex b).data.all isLowerHexChar) = true := by
  have h1 : b / 16 % 16 < 16 := Nat.mod_lt _ (by omega)
  have h2 : b % 16 < 16 := Nat.mod_lt _ (by omega)
  simp [byteHex, hexDigit_lower_hex _ h1, hexDigit_lower_hex _ h2]

/-- `bytes.hex()` renders entirely in `0-9a-f`. -/
theorem bytesHex_lower_hex (l : List Nat) : ((bytesHex l).data.all isLowerHexChar) = true := by
  induction l with
  | nil => rfl
  | cons b bs ih =>
      have hb := byteHex_lower_hex b
      simp only [bytesHex, String.data_append, List.all_append, hb, ih, Bool.and_self]

/-! ## Claim theorems -/

/-- C2: refuted on the code. In `get_or_verify`, the branch that decides
whether a caller performs the verification tests `not event.is_set()`
(line 168) instead of whether this caller created the pending entry, so a
second caller that finds a pending, not-yet-signalled entry also runs a
verification. The schedule below interleaves two callers on a cold
cache: both pass the cache read, caller A creates the pending entry,
caller B finds it unset, both take the verification branch, and two
underlying verifications complete. -/
theorem get_or_verify_double_verification :
    (runSchedule [false, false, true, true] coldStart).pending = some 0 ∧
    (runSchedule [false, false, true, true] coldStart).pcB = CallerPC.branch 0 ∧
    (runSchedule [false, false, true, true, false, true, false, true] coldStart).verifRuns = 2 ∧
    (runSchedule [false, false, true, true, false, true, false, true] coldStart).pcA =
      CallerPC.doneOk ∧
    (runSchedule [false, false, true, true, false, true, false, true] coldStart).pcB =
      CallerPC.doneOk := by decide

/-- C3: when the forge API response carries at least one attestation but
the DSSE payload is absent or fails to decode, the API
backend returns `verified = true` with an error string noting that
payload parsing failed. -/
theorem verify_with_api_unparsable_payload (org repo msg : String)
    (rest : List PayloadOutcome) :
    verify_with_api org repo (.ok (.absent :: rest)) =
      { verified := true, signer_identity := none, workflow_ref := none
        build_trigger := none, repository := some (org ++ "/" ++ repo)
        error := some "Attestation found but payload parsing failed" } ∧
    verify_with_api org repo (.ok (.parseFailure msg :: rest)) =
      { verified := true, signer_identity := none, workflow_ref := none
        build_trigger := none, repository := some (org ++ "/" ++ repo)
        error := some "Attestation found but payload parsing failed" } :=
  ⟨rfl, rfl⟩

/-- C5, counterexample to the claim as stated: with a zero return code
and verification result 7 (outside the enum), the code raises inside
`QuoteVerificationResult(...)` and the `except` block produces status
`EXCEPTION`, not `unknown`. -/
theorem real_verify_out_of_range_cex :
    (real_verify ⟨0, 7⟩ []).status = "EXCEPTION" ∧
    (real_verify ⟨0, 7⟩ []).verified = false ∧
    pyLower (real_verify ⟨0, 7⟩ []).status ≠ "unknown" := by
  refine ⟨rfl, rfl, ?_⟩
  decide

/-- C5, amended: when the native verify call returns 0, the
`verification_result` value maps to the claimed status table for codes
0..6 (status compared case-insensitively, as the spec writes statuses in
lower case), and every out-of-range code yields status `exception` with
`verified = false`. -/
theorem real_verify_result_mapping (res : Nat) (q : List Nat) :
    pyLower (real_verify ⟨0, res⟩ q).status = (specResultTable res).1 ∧
    (real_verify ⟨0, res⟩ q).verified = (specResultTable res).2 := by
  rcases res with _ | _ | _ | _ | _ | _ | _ | n <;> exact ⟨rfl, rfl⟩

/-- C4: when the native library cannot be loaded, a decoded quote of
length at least 560 with version field 4 is accepted by the mock
fallback: `verified = true`, the distinct status `MOCK_OK` (the spec
writes it `mock_ok`), and a non-empty explanatory error string. -/
theorem verify_quote_mock_fallback (q : List Nat) (native : NativeCall)
    (hlen : 560 ≤ q.length) (hver : quoteVersion q = 4) :
    verify_quote false native (.ok q) =
      { verified := true, status := "MOCK_OK", tcb_status := some "MockVerification"
        collateral_expiry := none, quote_body := some q
        error := some "DCAP library not available - structural validation only" } ∧
    pyLower "MOCK_OK" = "mock_ok" ∧
    ("DCAP library not available - structural validation only" : String) ≠ "" := by
  refine ⟨?_, by decide, by decide⟩
  simp [verify_quote, mock_verify, Nat.not_lt.mpr hlen, hver]

/-- C4 witness: a concrete 560-byte quote with version field 4, checked
with the library unavailable. -/
theorem verify_quote_mock_fallback_witness :
    560 ≤ (4 :: 0 :: List.replicate 558 (0 : Nat)).length ∧
    quoteVersion (4 :: 0 :: List.replicate 558 (0 : Nat)) = 4 ∧
    (verify_quote false ⟨0, 0⟩ (.ok (4 :: 0 :: List.replicate 558 (0 : Nat)))).verified = true ∧
    (verify_quote false ⟨0, 0⟩ (.ok (4 :: 0 :: List.replicate 558 (0 : Nat)))).status =
      "MOCK_OK" := by
  have hlen : 560 ≤ (4 :: 0 :: List.replicate 558 (0 : Nat)).length := by
    simp only [List.length_cons, List.length_replicate]
    omega
  have h := verify_quote_mock_fallback (4 :: 0 :: List.replicate 558 (0 : Nat)) ⟨0, 0⟩ hlen rfl
  exact ⟨hlen, rfl, by rw [h.1], by rw [h.1]⟩

/-- C7, counterexample to the claim as stated: with the native library
loaded, `verify_quote` hands the decoded quote straight to
`_real_verify`, which performs no structural pre-checks, so a 559-byte
quote is not rejected with `INVALID_QUOTE_LENGTH`; with a successful
native call it is reported `OK`. -/
theorem verify_quote_loaded_library_skips_prechecks_cex :
    (verify_quote true ⟨0, 0⟩ (.ok (List.replicate 559 0))).status = "OK" ∧
    (verify_quote true ⟨0, 0⟩ (.ok (List.replicate 559 0))).verified = true ∧
    (List.replicate 559 (0 : Nat)).length < 560 ∧
    ("OK" : String) ≠ "INVALID_QUOTE_LENGTH" := by
  refine ⟨rfl, rfl, ?_, by decide⟩
  rw [List.length_replicate]
  omega

/-- C7, amended: the structural pre-checks run on the mock path, taken
when the native library is unavailable: there a decoded quote shorter
than 560 bytes yields exactly status `INVALID_QUOTE_LENGTH`, a long
enough quote with version field other than 4 yields exactly
`INVALID_QUOTE_VERSION`, and the quote is accepted otherwise. -/
theorem verify_quote_prechecks_mock_path (q : List Nat) (native : NativeCall) :
    ((verify_quote false native (.ok q)).status = "INVALID_QUOTE_LENGTH" ↔
       q.length < 560) ∧
    ((verify_quote false native (.ok q)).status = "INVALID_QUOTE_VERSION" ↔
       (560 ≤ q.length ∧ quoteVersion q ≠ 4)) ∧
    ((verify_quote false native (.ok q)).verified = true ↔
       (560 ≤ q.length ∧ quoteVersion q = 4)) := by
  by_cases h1 : q.length < 560
  · have h1n : ¬ 560 ≤ q.length := by omega
    simp [verify_quote, mock_verify, h1, h1n]
  · have h1n : 560 ≤ q.length := by omega
    by_cases h2 : quoteVersion q = 4
    · simp [verify_quote, mock_verify, h1, h1n, h2]
    · simp [verify_quote, mock_verify, h1, h1n, h2]

/-- C6, counterexample to the claim as stated: an entry stored at `t0 = 0`
with ttl 300 is still returned by `get` at exactly `t = t0 + ttl = 300`,
because `is_expired` uses a strict comparison (`utcnow() > expires_at`);
the claim demands `none` for every `t ≥ t0 + ttl`. -/
theorem cache_get_at_exact_expiry_cex :
    (cache_get (cache_set [] 0 300 "app" true).1 300 "app").2 =
      some { app_id := "app", verified := true, cached_at := 0, expires_at := 300 } ∧
    ((0 : Int) + 300 ≤ 300) := by decide

/-- C6, amended: an entry stored at `t0` with ttl `Δ` is returned by
`get` for every read time `t ≤ t0 + Δ` (leaving the cache unchanged) and
`get` returns `none` for every `t > t0 + Δ`, the first such `get`
removing the stale entry. -/
theorem cache_ttl_boundary (st : List (String × CachedAttestation))
    (t0 ttl t : Int) (app : String) (v : Bool) :
    (cache_set st t0 ttl app v).2.cached_at = t0 ∧
    (cache_set st t0 ttl app v).2.expires_at = t0 + ttl ∧
    (cache_get (cache_set st t0 ttl app v).1 t app).2 =
      (if t ≤ t0 + ttl then some (cache_set st t0 ttl app v).2 else none) ∧
    (cache_get (cache_set st t0 ttl app v).1 t app).1 =
      (if t ≤ t0 + ttl then (cache_set st t0 ttl app v).1
       else cache_erase (cache_set st t0 ttl app v).1 app) ∧
    cache_lookup (cache_erase (cache_set st t0 ttl app v).1 app) app = none := by
  refine ⟨rfl, rfl, ?_, ?_, cache_lookup_erase _ _⟩ <;>
  · by_cases h : t ≤ t0 + ttl
    · have hx : ¬ ((t0 + ttl : Int) < t) := by omega
      simp [cache_set, cache_get, cache_lookup, cache_erase, is_expired, hx, h]
    · have hx : (t0 + ttl : Int) < t := by omega
      simp [cache_set, cache_get, cache_lookup, cache_erase, is_expired, hx, h]

/-- C10, counterexample to the claim as stated: the response strip set is
not the request strip set plus `content-encoding` and `content-length`,
because `host` is absent from it; a `Host` response header consequently
survives `filter_response_headers`. -/
theorem skip_response_headers_missing_host_cex :
    ("host" ∈ SKIP_REQUEST_HEADERS ++ ["content-encoding", "content-length"]) ∧
    ("host" ∉ SKIP_RESPONSE_HEADERS) ∧
    filter_response_headers [("Host", "upstream")] = [("Host", "upstream")] := by decide

/-- C10, amended: the response strip set equals the request strip set
minus `host` plus `content-encoding` and `content-length`; no header
whose lower-cased name is in the response strip set survives
`filter_response_headers`, and none in the request strip set survives
`filter_request_headers`. -/
theorem header_strip_sets (headers : List (String × String)) :
    SKIP_RESPONSE_HEADERS =
      SKIP_REQUEST_HEADERS.erase "host" ++ ["content-encoding", "content-length"] ∧
    (filter_response_headers headers).all
      (fun kv => !(SKIP_RESPONSE_HEADERS.contains (pyLower kv.1))) = true ∧
    (filter_request_headers headers).all
      (fun kv => !(SKIP_REQUEST_HEADERS.contains (pyLower kv.1))) = true :=
  ⟨by decide, filter_all_keeps _ _, filter_all_keeps _ _⟩

/-- C1, counterexample to the claim as stated: the repository check in
`_verify_with_api` is a case-insensitive substring test
(`expected_repo_full.lower() not in repo_ref.lower()`), not an equality,
so a predicate naming the different repository
`https://github.com/owner/repo-fork` still verifies against the
registration `owner/repo`. -/
theorem verify_with_api_superstring_accepted_cex :
    (verify_with_api "owner" "repo"
      (.ok [.parsed { repository := "https://github.com/owner/repo-fork"
                      ref := "refs/heads/main", event_name := none }])).verified = true ∧
    pyLower "https://github.com/owner/repo-fork" ≠
      pyLower ("https://github.com/" ++ "owner" ++ "/" ++ "repo") := by
  refine ⟨by decide, by decide⟩

/-- C1, amended: for a parsed DSSE payload, the API backend returns
`verified = false` with the repository-mismatch error exactly when the
predicate repository is non-empty and does not contain (case-insensitive
substring test) the expected `https://github.com/{owner}/{repo}`;
otherwise it returns `verified = true` with the unverified-signature
caveat and the expected repository echoed back. -/
theorem verify_with_api_repository_containment (org repo rrepo wref : String)
    (trig : Option String) (rest : List PayloadOutcome) :
    ((verify_with_api org repo
        (.ok (.parsed ⟨rrepo, wref, trig⟩ :: rest))).verified = false ↔
      (rrepo ≠ "" ∧
       pyIn (pyLower ("https://github.com/" ++ org ++ "/" ++ repo)) (pyLower rrepo) =
         false)) ∧
    (verify_with_api org repo
        (.ok (.parsed ⟨rrepo, wref, trig⟩ :: rest))).error =
      some (if (verify_with_api org repo
                  (.ok (.parsed ⟨rrepo, wref, trig⟩ :: rest))).verified then
              "API-based verification (signature not fully verified)"
            else
              "Repository mismatch: expected " ++
                ("https://github.com/" ++ org ++ "/" ++ repo) ++ ", got " ++ rrepo) ∧
    (verify_with_api org repo
        (.ok (.parsed ⟨rrepo, wref, trig⟩ :: rest))).workflow_ref = some wref := by
  by_cases h1 : rrepo = ""
  · subst h1
    simp [verify_with_api]
  · by_cases h2 : pyIn (pyLower ("https://github.com/" ++ org ++ "/" ++ repo))
        (pyLower rrepo) = true
    · simp [verify_with_api, h1, h2]
    · rw [Bool.not_eq_true] at h2
      simp [verify_with_api, h1, h2]

/-- C8: for every byte buffer of length at least 560,
`extract_measurements` renders bytes `[176,224)` as MRTD and bytes
`[368,416)`, `[416,464)`, `[464,512)`, `[512,560)` as RTMR0..RTMR3, each
as 96 characters of lower-case hex. -/
theorem extract_measurements_offsets (q : List Nat) (h : 560 ≤ q.length) :
    extract_measurements q = .ok
      { mrtd := bytesHex ((q.drop 176).take 48)
        rtmr0 := bytesHex ((q.drop 368).take 48)
        rtmr1 := bytesHex ((q.drop 416).take 48)
        rtmr2 := bytesHex ((q.drop 464).take 48)
        rtmr3 := bytesHex ((q.drop 512).take 48) } ∧
    (bytesHex ((q.drop 176).take 48)).length = 96 ∧
    (bytesHex ((q.drop 368).take 48)).length = 96 ∧
    (bytesHex ((q.drop 416).take 48)).length = 96 ∧
    (bytesHex ((q.drop 464).take 48)).length = 96 ∧
    (bytesHex ((q.drop 512).take 48)).length = 96 ∧
    ((bytesHex ((q.drop 176).take 48)).data.all isLowerHexChar) = true ∧
    ((bytesHex ((q.drop 368).take 48)).data.all isLowerHexChar) = true ∧
    ((bytesHex ((q.drop 416).take 48)).data.all isLowerHexChar) = true ∧
    ((bytesHex ((q.drop 464).take 48)).data.all isLowerHexChar) = true ∧
    ((bytesHex ((q.drop 512).take 48)).data.all isLowerHexChar) = true := by
  have hn : ¬ q.length < 560 := by omega
  have hs : ∀ a : Nat, a + 48 ≤ 560 → ((q.drop a).take 48).length = 48 := by
    intro a ha
    rw [List.length_take, List.length_drop]
    omega
  refine ⟨?_, ?_, ?_, ?_, ?_, ?_,
          bytesHex_lower_hex _, bytesHex_lower_hex _, bytesHex_lower_hex _,
          bytesHex_lower_hex _, bytesHex_lower_hex _⟩
  · simp [extract_measurements, hn, pySlice, MRTD_OFFSET, RTMR_OFFSET,
          TD_REPORT_OFFSET, QUOTE_HEADER_SIZE]
  · rw [bytesHex_length, hs 176 (by omega)]
  · rw [bytesHex_length, hs 368 (by omega)]
  · rw [bytesHex_length, hs 416 (by omega)]
  · rw [bytesHex_length, hs 464 (by omega)]
  · rw [bytesHex_length, hs 512 (by omega)]

/-- C8 witness: the extraction applied to a concrete 560-byte buffer. -/
theorem extract_measurements_offsets_witness :
    560 ≤ (List.replicate 560 (3 : Nat)).length ∧
    extract_measurements (List.replicate 560 (3 : Nat)) = .ok
      { mrtd := bytesHex ((List.replicate 560 (3 : Nat)).drop 176 |>.take 48)
        rtmr0 := bytesHex ((List.replicate 560 (3 : Nat)).drop 368 |>.take 48)
        rtmr1 := bytesHex ((List.replicate 560 (3 : Nat)).drop 416 |>.take 48)
        rtmr2 := bytesHex ((List.replicate 560 (3 : Nat)).drop 464 |>.take 48)
        rtmr3 := bytesHex ((List.replicate 560 (3 : Nat)).drop 512 |>.take 48) } ∧
    (bytesHex ((List.replicate 560 (3 : Nat)).drop 176 |>.take 48)).length = 96 := by
  have h : 560 ≤ (List.replicate 560 (3 : Nat)).length := by
    rw [List.length_replicate]
  have hx := extract_measurements_offsets (List.replicate 560 (3 : Nat)) h
  exact ⟨h, hx.1, hx.2.1⟩

/-- C9, counterexample to the claim as stated: `compare_measurements`
skips RTMR3 by default (`skip_rtmr3 = True`, also at its only call site
in `ChainVerifier._verify_measurements`), so a pair differing only in
RTMR3 compares as `verified = true` with no register listed, not
`verified = false` with RTMR3 listed. -/
theorem compare_measurements_rtmr3_skipped_cex :
    (compare_measurements ⟨"aa", "bb", "cc", "dd", "ee"⟩
       ⟨"aa", "bb", "cc", "dd", "ff"⟩).verified = true ∧
    (compare_measurements ⟨"aa", "bb", "cc", "dd", "ee"⟩
       ⟨"aa", "bb", "cc", "dd", "ff"⟩).error = none ∧
    pyLower "ee" ≠ pyLower "ff" := by decide

/-- C9, amended: comparison is reflexive (`verified = true`, all five
match bits set), and for a pair differing in exactly one register
(case-insensitively) the result is `verified = false` with exactly that
register listed in the error — except that a difference only in RTMR3 is
ignored (`verified = true`) when `skip_rtmr3` is set, as it is by
default. -/
theorem compare_measurements_register_semantics (m : TDXMeasurements)
    (r : MeasurementReg) (v : String) (skip : Bool)
    (hdiff : pyLower (regValue m r) ≠ pyLower v) :
    ((compare_measurements m m skip).verified = true) ∧
    (∀ q, matchBit (compare_measurements m m skip) q = true) ∧
    ((compare_measurements m (setRegValue m r v) skip).verified =
       ((r == MeasurementReg.rtmr3) && skip)) ∧
    (∀ q, matchBit (compare_measurements m (setRegValue m r v) skip) q =
       ((q != r) || ((r == MeasurementReg.rtmr3) && skip))) ∧
    ((compare_measurements m (setRegValue m r v) skip).error =
       if (r == MeasurementReg.rtmr3) && skip then none
       else some ("Measurement mismatch in: " ++ regLabel r)) := by
  have hb : (pyLower (regValue m r) == pyLower v) = false := by
    simp [hdiff]
  refine ⟨?_, ?_, ?_, ?_, ?_⟩
  · cases skip <;> simp [compare_measurements]
  · intro q
    cases q <;> cases skip <;> simp [compare_measurements, matchBit]
  · cases r <;> cases skip <;>
      simp_all [compare_measurements, regValue, setRegValue, matchBit]
  · intro q
    cases r <;> cases q <;> cases skip <;>
      simp_all [compare_measurements, regValue, setRegValue, matchBit]
  · cases r <;> cases skip <;>
      simp_all [compare_measurements, regValue, setRegValue, regLabel,
                String.intercalate] <;> rfl

/-- C9 witness: a concrete record and a single differing MRTD value. -/
theorem compare_measurements_register_semantics_witness :
    pyLower (regValue ⟨"aa", "bb", "cc", "dd", "ee"⟩ MeasurementReg.mrtd) ≠ pyLower "FF" ∧
    (compare_measurements ⟨"aa", "bb", "cc", "dd", "ee"⟩
       (setRegValue ⟨"aa", "bb", "cc", "dd", "ee"⟩ MeasurementReg.mrtd "FF") true).verified =
      ((MeasurementReg.mrtd == MeasurementReg.rtmr3) && true) ∧
    (compare_measurements ⟨"aa", "bb", "cc", "dd", "ee"⟩
       (setRegValue ⟨"aa", "bb", "cc", "dd", "ee"⟩ MeasurementReg.mrtd "FF") true).error =
      (if (MeasurementReg.mrtd == MeasurementReg.rtmr3) && true then none
       else some ("Measurement mismatch in: " ++ regLabel MeasurementReg.mrtd)) := by
  have hd : pyLower (regValue ⟨"aa", "bb", "cc", "dd", "ee"⟩ MeasurementReg.mrtd) ≠
      pyLower "FF" := by decide
  have h := compare_measurements_register_semantics
    ⟨"aa", "bb", "cc", "dd", "ee"⟩ MeasurementReg.mrtd "FF" true hd
  exact ⟨hd, h.2.2.1, h.2.2.2.2⟩
